import Mathlib

/-!
Verification of the ffmpeg-gui front-end core (src/src/main.ts) against its
natural-language specification. Strings are modelled as lists of characters;
JavaScript numbers are modelled as rationals (no NaN can arise at the call
sites embedded here, as noted at each definition).
-/

namespace FfmpegGui

/-- Maximal prefix of decimal digits of a character list, with the rest. -/
def takeDigits : List Char → List Char × List Char
  | [] => ([], [])
  | c :: rest =>
    if c.isDigit then
      let p := takeDigits rest
      (c :: p.1, p.2)
    else ([], c :: rest)

/-- The optional fractional part of the regex group: matches the greedy
regex piece (?:\.\d+)? at the start of the list, returning the characters
it consumes (empty when the piece matches emptily). -/
def matchFrac : List Char → List Char
  | '.' :: rest =>
    let ds := (takeDigits rest).1
    if ds = [] then [] else '.' :: ds
  | _ => []

/-- Attempt of the regex group \d\x7b2\x7d:\d\x7b2\x7d:\d\x7b2\x7d(?:\.\d+)?
at the start of the list: two digits, a colon, two digits, a colon, two
digits, then the greedy optional fraction. -/
def matchTimeValue : List Char → Option (List Char)
  | a :: b :: c1 :: c :: d :: c2 :: e :: f :: rest =>
    if a.isDigit && b.isDigit && c1 = ':' && c.isDigit && d.isDigit &&
        c2 = ':' && e.isDigit && f.isDigit then
      some (a :: b :: ':' :: c :: d :: ':' :: e :: f :: matchFrac rest)
    else none
  | _ => none

/-- Leftmost match of the JavaScript regex
/time=(\d\x7b2\x7d:\d\x7b2\x7d:\d\x7b2\x7d(?:\.\d+)?)/ over a line,
returning the captured group: the match attempt at each position succeeds
exactly when the literal time= is followed by a well-formed group there. -/
def firstTimeMatch : List Char → Option (List Char)
  | 't' :: 'i' :: 'm' :: 'e' :: '=' :: after =>
    (match matchTimeValue after with
     | some g => some g
     | none => firstTimeMatch ('i' :: 'm' :: 'e' :: '=' :: after))
  | _ :: rest => firstTimeMatch rest
  | [] => none

/-- String.prototype.split with a one-character separator, as used by
parseTimestampToSeconds (value.split(":")). -/
def splitOnChar (sep : Char) : List Char → List (List Char)
  | [] => [[]]
  | c :: rest =>
    let r := splitOnChar sep rest
    if c = sep then [] :: r
    else
      match r with
      | [] => [[c]]
      | h :: t => (c :: h) :: t

/-- Numeric value of a list of decimal digits, most significant first. -/
def digitsVal (ds : List Char) : ℕ :=
  ds.foldl (fun acc c => 10 * acc + (c.toNat - ('0').toNat)) 0

/-- JavaScript Number() restricted to the strings that can reach it from
the time= regex group split on colons: a nonempty run of decimal digits
optionally followed by a dot and a run of digits. none models NaN. (The
full Number() also accepts signs, exponents, whitespace and hex, none of
which occur in a regex group of shape dd, or dd.digits.) -/
def jsNumber? (s : List Char) : Option ℚ :=
  let p := takeDigits s
  if p.1 = [] then none
  else
    match p.2 with
    | [] => some (digitsVal p.1)
    | '.' :: fracRest =>
      let q := takeDigits fracRest
      if q.2 = [] then
        some ((digitsVal p.1 : ℚ) + (digitsVal q.1 : ℚ) / (10 ^ q.1.length))
      else none
    | _ => none

/-- parseTimestampToSeconds (src/src/main.ts lines 93-105): split on colons,
demand exactly three parts, convert each with Number(), return 0 on a wrong
part count or any NaN, else hours*3600 + minutes*60 + seconds. -/
def parseTimestampToSeconds (value : List Char) : ℚ :=
  match splitOnChar ':' value with
  | [p0, p1, p2] =>
    (match jsNumber? p0, jsNumber? p1, jsNumber? p2 with
     | some hours, some minutes, some seconds =>
       hours * 3600 + minutes * 60 + seconds
     | _, _, _ => 0)
  | _ => 0

/-- setProgress (src/src/main.ts lines 87-91): the displayed value is the
argument clamped to [0, 100]. -/
def setProgress (value : ℚ) : ℚ :=
  max 0 (min 100 value)

/-- updateProgressFromLogLine (src/src/main.ts lines 107-121), with the
ambient appState.durationSec passed explicitly. Guard !durationSec ||
durationSec <= 0 collapses to durationSec ≤ 0 over ℚ (0 is the only falsy
rational). Returns the value handed to setProgress, or none when the
function returns without calling it. -/
def updateProgressFromLogLine (durationSec : ℚ) (line : List Char) : Option ℚ :=
  if durationSec ≤ 0 then none
  else
    match firstTimeMatch line with
    | none => none
    | some g =>
      let elapsed := parseTimestampToSeconds g
      if elapsed ≤ 0 then none
      else some (setProgress (elapsed / durationSec * 100))

/-- Boolean substring containment, as String.prototype.includes. -/
def containsSub (needle : List Char) : List Char → Bool
  | [] => needle.isEmpty
  | c :: rest => needle.isPrefixOf (c :: rest) || containsSub needle rest

/-- raw.includes(code) on Lean strings. -/
def containsCode (raw code : String) : Bool :=
  containsSub code.toList raw.toList

def errMsgDownload : String :=
  "FFmpeg ダウンロードに失敗しました。ネットワーク接続を確認してください。"

def errMsgHash : String :=
  "FFmpeg ダウンロードファイルの検証に失敗しました（SHA-256不一致）。"

def errMsgNotFound : String :=
  "FFmpeg が見つかりません。ネット接続またはPATH設定を確認してください。"

def errMsgCancelled : String :=
  "変換をキャンセルしました。"

def errMsgStart : String :=
  "FFmpeg の起動に失敗しました。"

/-- formatBackendError (src/src/main.ts lines 123-141): classify the raw
error text by substring search for the backend error codes, checked in the
source's order, falling through to the raw text itself. -/
def formatBackendError (raw : String) : String :=
  if containsCode raw ("ERR_DOWNLOAD") then errMsgDownload
  else if containsCode raw ("ERR_HASH") then errMsgHash
  else if containsCode raw ("ERR_FFMPEG_NOT_FOUND") then errMsgNotFound
  else if containsCode raw ("ERR_CANCELLED") then errMsgCancelled
  else if containsCode raw ("ERR_START") then errMsgStart
  else raw

/-- ConvertOptions (src/src/main.ts lines 16-26); fpsMode is the string
union "fixed" | "variable". -/
structure ConvertOptions where
  width : ℚ
  height : ℚ
  videoBitrateK : ℚ
  fpsMode : String
  frameRate : ℚ
  audioFormat : String
  audioBitrateK : ℚ
  crf : ℚ
  outputExt : String
  deriving DecidableEq

/-- ProbeResult (src/src/main.ts lines 6-14) as delivered at runtime by the
probe_video backend call: a field the probe could not determine arrives as
undefined (none here) or zero/empty. width and height are always present. -/
structure ProbeResult where
  width : ℚ
  height : ℚ
  frameRate : Option ℚ
  videoBitrateK : Option ℚ
  audioBitrateK : Option ℚ
  audioFormat : Option String
  durationSec : Option ℚ
  deriving DecidableEq

/-- JavaScript v || d for a numeric v: undefined and 0 are falsy and select
the default; every other rational is truthy. (NaN, the one other falsy
number, has no counterpart in ℚ and cannot be produced by the probe.) -/
def orFalsyQ (v : Option ℚ) (d : ℚ) : ℚ :=
  match v with
  | none => d
  | some x => if x = 0 then d else x

/-- JavaScript v || d for a string v: undefined and "" are falsy. -/
def orFalsyS (v : Option String) (d : String) : String :=
  match v with
  | none => d
  | some x => if x = "" then d else x

/-- appState (src/src/main.ts lines 28-38). -/
structure AppState where
  inputPath : Option String
  defaults : Option ConvertOptions
  converting : Bool
  durationSec : ℚ
  deriving DecidableEq

/-- The defaults object built by probeAndFillDefaults (src/src/main.ts
lines 238-248) from a probe result. -/
def probeDefaults (probe : ProbeResult) : ConvertOptions :=
  { width := probe.width
    height := probe.height
    videoBitrateK := orFalsyQ probe.videoBitrateK 3000
    fpsMode := "variable"
    frameRate := orFalsyQ probe.frameRate 30
    audioFormat := orFalsyS probe.audioFormat "aac"
    audioBitrateK := orFalsyQ probe.audioBitrateK 128
    crf := 23
    outputExt := "mp4" }

/-- The state effect of probeAndFillDefaults (src/src/main.ts lines
235-251): record the probed duration (|| 0) and store the defaults. -/
def probeAndFillDefaults (s : AppState) (probe : ProbeResult) : AppState :=
  { s with
    durationSec := orFalsyQ probe.durationSec 0
    defaults := some (probeDefaults probe) }

/-- Resolution of the awaited invoke of run_convert: the backend either
resolves with an output path and exit code, or rejects with an error
message (ERR_START, ERR_CANCELLED, or an execution failure text). -/
inductive InvokeOutcome where
  | ok (outputPath : String) (exitCode : Int)
  | err (message : String)
  deriving DecidableEq

def msgSelectInput : String := "入力ファイルを選択してください"

def msgBusy : String := "変換中です"

def msgConvertStart : String := "変換を開始します"

def msgNotConverting : String := "現在は変換中ではありません"

/-- Observable effects of one convertButton click: the state left behind,
whether run_convert was invoked, the appended log lines, and the values
handed to setProgress (already clamped), all in order. -/
structure ConvertClick where
  state : AppState
  invokedRunConvert : Bool
  logs : List String
  progressSets : List ℚ
  deriving DecidableEq

/-- convertButton click handler (src/src/main.ts lines 436-463): guard on a
missing input path, guard on a running conversion, otherwise set the
converting flag, reset the progress bar, invoke run_convert, and in all
outcome branches clear the converting flag in the finally block. On an
error containing ERR_CANCELLED the progress bar is reset once more. -/
def convertButtonClick (s : AppState) (outcome : InvokeOutcome) : ConvertClick :=
  match s.inputPath with
  | none => ⟨s, false, [msgSelectInput], []⟩
  | some _ =>
    if s.converting then ⟨s, false, [msgBusy], []⟩
    else
      match outcome with
      | .ok outputPath exitCode =>
        ⟨{ s with converting := false }, true,
         [msgConvertStart,
          "変換完了: " ++ outputPath ++ " (exit=" ++ toString exitCode ++ ")"],
         [setProgress 0, setProgress 100]⟩
      | .err message =>
        ⟨{ s with converting := false }, true,
         [msgConvertStart, "変換失敗: " ++ formatBackendError message],
         if containsCode message ("ERR_CANCELLED") then
           [setProgress 0, setProgress 0]
         else [setProgress 0]⟩

/-- Resolution of the awaited invoke of cancel_convert. -/
inductive CancelInvokeOutcome where
  | ok (requested : Bool)
  | err (message : String)
  deriving DecidableEq

/-- Observable effects of one cancelButton click. -/
structure CancelClick where
  state : AppState
  invokedCancelConvert : Bool
  logs : List String
  deriving DecidableEq

/-- cancelButton click handler (src/src/main.ts lines 465-480): when no
conversion is running, log that and return without invoking the backend;
otherwise invoke cancel_convert and log its outcome. -/
def cancelButtonClick (s : AppState) (outcome : CancelInvokeOutcome) : CancelClick :=
  if s.converting then
    match outcome with
    | .ok true => ⟨s, true, ["キャンセル要求を送信しました"]⟩
    | .ok false => ⟨s, true, ["キャンセル対象のプロセスが見つかりません"]⟩
    | .err message => ⟨s, true, ["キャンセル失敗: " ++ formatBackendError message]⟩
  else ⟨s, false, [msgNotConverting]⟩

def msgSingleFileOnly : String := "入力は1ファイルのみです。先頭ファイルだけ受け付けます。"

/-- Observable effects of the drop branch of the native drag-drop handler:
which path is handed to handleFilePath, and whether the single-file notice
is logged. -/
structure DropHandling where
  processedPath : Option String
  multiDropNotice : Bool
  deriving DecidableEq

/-- The drop branch of setupNativeDragDrop (src/src/main.ts lines 289-300):
an empty path list returns immediately; more than one path logs the
single-file notice; paths[0] alone is handed to handleFilePath. -/
def onNativeDrop (paths : List String) : DropHandling :=
  if paths.length = 0 then ⟨none, false⟩
  else ⟨paths.head?, decide (paths.length > 1)⟩

/-- Lifecycle states of a conversion job (spec §4.4). -/
inductive JobPhase where
  | idle
  | starting
  | running
  | cancelRequested
  | completed
  | failed
  | cancelled
  deriving DecidableEq

/-- The phases in which spec §4.4 declares a cancel request a no-op:
Idle, Completed, Failed, Cancelled. -/
def cancelIsNoOp : JobPhase → Bool
  | .idle => true
  | .completed => true
  | .failed => true
  | .cancelled => true
  | _ => false

/-- Response and side effects of one backend cancel_convert call. -/
structure CancelConvertOutcome where
  requested : Bool
  signalSent : Bool
  isError : Bool
  deriving DecidableEq

/-- Modelled from the spec: the backend command cancel_convert (spec §6,
§4.4) is not part of src/ (the repository ships only the front-end).
Per the spec, a cancel request while the job is in Idle, Completed, Failed
or Cancelled is a no-op that reports no active job — it returns
\x7b requested: false \x7d, raises no error and sends no termination
signal; with an active job it sends the termination signal and returns
\x7b requested: true \x7d. -/
def cancel_convert (phase : JobPhase) : CancelConvertOutcome :=
  if cancelIsNoOp phase then ⟨false, false, false⟩
  else ⟨true, true, false⟩

/-- Result of an acquisition attempt (spec §4.1). -/
inductive AcquireOutcome where
  | ready (provenance : String)
  | failedWith (code : String)
  deriving DecidableEq

/-- Verification verdict for a downloaded archive: the outcome and whether
the downloaded artifact is kept as a verified binary. -/
structure VerifyResult where
  outcome : AcquireOutcome
  artifactKept : Bool
  deriving DecidableEq

/-- The pinned SHA-256 hex digest of the FFmpeg release archive
(FFmpeg acquisition policy in the repository README). -/
def pinnedSha256Hex : String :=
  "e2aaeaa0fdbc397d4794828086424d4aaa2102cef1fb6874f6ffd29c0b88b673"

/-- Modelled from the spec: the download-verification step of
ensure_ffmpeg_ready (BinaryResolver, spec §4.1 steps 3-4) is not part of
src/ (the repository ships only the front-end). Per the spec, after a
successful download the resolver computes SHA-256 over the full archive
content and compares the hex digest byte-for-byte against the pinned
constant; on a match it extracts and keeps the binary with provenance
downloaded, on a mismatch it fails with ERR_HASH and discards the
artifact. The digest function is a parameter of the model; archives are
byte lists. -/
def verifyDownload (sha256hex : List ℕ → String) (pinnedHex : String)
    (archive : List ℕ) : VerifyResult :=
  if sha256hex archive = pinnedHex then ⟨.ready ("downloaded"), true⟩
  else ⟨.failedWith ("ERR_HASH"), false⟩

/-- C1: in every state whose converting flag is set, a convertButton click
is rejected without invoking run_convert, the state is unchanged, and —
whenever an input file is selected, as it always is once a conversion has
started — the rejection is logged with the busy message. -/
theorem convert_busy_rejected (s : AppState) (o : InvokeOutcome)
    (h : s.converting = true) :
    (convertButtonClick s o).invokedRunConvert = false ∧
    (convertButtonClick s o).state = s ∧
    (∀ p, s.inputPath = some p → (convertButtonClick s o).logs = [msgBusy]) := by
  cases hip : s.inputPath with
  | none => simp [convertButtonClick, hip, h]
  | some p => simp [convertButtonClick, hip, h]

/-- Witness for convert_busy_rejected at a concrete busy state. -/
theorem convert_busy_rejected_witness :
    (convertButtonClick ⟨some ("C:\\in.mp4"), none, true, 0⟩
      (.err ("ERR_START"))).invokedRunConvert = false ∧
    (convertButtonClick ⟨some ("C:\\in.mp4"), none, true, 0⟩
      (.err ("ERR_START"))).state = ⟨some ("C:\\in.mp4"), none, true, 0⟩ ∧
    (convertButtonClick ⟨some ("C:\\in.mp4"), none, true, 0⟩
      (.err ("ERR_START"))).logs = [msgBusy] := by
  have h := convert_busy_rejected ⟨some ("C:\\in.mp4"), none, true, 0⟩
    (.err ("ERR_START")) rfl
  exact ⟨h.1, h.2.1, h.2.2 ("C:\\in.mp4") rfl⟩

/-- C9: a convertButton click that actually starts a conversion clears the
converting flag in its finally block under every outcome of run_convert —
success, ERR_START, ERR_CANCELLED or an execution failure — so a
subsequent click is not rejected as busy and invokes run_convert again. -/
theorem convert_completion_clears_busy (s : AppState) (p : String)
    (o : InvokeOutcome) (hin : s.inputPath = some p)
    (hnb : s.converting = false) :
    (convertButtonClick s o).state.converting = false ∧
    (convertButtonClick s o).invokedRunConvert = true ∧
    (∀ o2, (convertButtonClick (convertButtonClick s o).state o2).invokedRunConvert = true) := by
  have hstate : (convertButtonClick s o).state = { s with converting := false } := by
    cases o <;> simp [convertButtonClick, hin, hnb]
  refine ⟨by rw [hstate], ?_, ?_⟩
  · cases o <;> simp [convertButtonClick, hin, hnb]
  · intro o2
    rw [hstate]
    cases o2 <;> simp [convertButtonClick, hin, hnb]

/-- Witness for convert_completion_clears_busy: after a cancelled
conversion the core accepts the next conversion request. -/
theorem convert_completion_clears_busy_witness :
    (convertButtonClick ⟨some ("C:\\in.mp4"), none, false, 125⟩
      (.err ("ERR_CANCELLED"))).state.converting = false ∧
    (convertButtonClick ⟨some ("C:\\in.mp4"), none, false, 125⟩
      (.err ("ERR_CANCELLED"))).invokedRunConvert = true ∧
    (convertButtonClick
      (convertButtonClick ⟨some ("C:\\in.mp4"), none, false, 125⟩
        (.err ("ERR_CANCELLED"))).state
      (.ok ("C:\\in.mp4") 0)).invokedRunConvert = true := by
  have h := convert_completion_clears_busy ⟨some ("C:\\in.mp4"), none, false, 125⟩
    ("C:\\in.mp4") (.err ("ERR_CANCELLED")) rfl rfl
  exact ⟨h.1, h.2.1, h.2.2 (.ok ("C:\\in.mp4") 0)⟩

/-- C7: a cancel request with no conversion in progress is a no-op on the
front end — it logs that nothing is converting, leaves the state unchanged
and never invokes the backend — and, in the spec-modelled backend, a
cancel_convert call in an Idle, Completed, Failed or Cancelled phase
returns requested = false, raises no error and sends no signal. -/
theorem cancel_noop_when_inactive (s : AppState) (o : CancelInvokeOutcome)
    (phase : JobPhase) (hfe : s.converting = false)
    (hph : phase = .idle ∨ phase = .completed ∨ phase = .failed ∨ phase = .cancelled) :
    (cancelButtonClick s o).invokedCancelConvert = false ∧
    (cancelButtonClick s o).state = s ∧
    (cancelButtonClick s o).logs = [msgNotConverting] ∧
    (cancel_convert phase).requested = false ∧
    (cancel_convert phase).signalSent = false ∧
    (cancel_convert phase).isError = false := by
  rcases hph with h | h | h | h <;> subst h <;>
    simp [cancelButtonClick, hfe, cancel_convert, cancelIsNoOp]

/-- Witness for cancel_noop_when_inactive at the idle start state. -/
theorem cancel_noop_when_inactive_witness :
    (cancelButtonClick ⟨none, none, false, 0⟩ (.ok true)).invokedCancelConvert = false ∧
    (cancelButtonClick ⟨none, none, false, 0⟩ (.ok true)).state = ⟨none, none, false, 0⟩ ∧
    (cancelButtonClick ⟨none, none, false, 0⟩ (.ok true)).logs = [msgNotConverting] ∧
    (cancel_convert .idle).requested = false ∧
    (cancel_convert .idle).signalSent = false ∧
    (cancel_convert .idle).isError = false := by
  exact cancel_noop_when_inactive ⟨none, none, false, 0⟩ (.ok true) .idle rfl (Or.inl rfl)

/-- C10: a native drop of an empty path list is ignored entirely; a drop of
one or more paths hands exactly the first path to handleFilePath, and the
single-file notice is logged exactly when more than one path arrived. -/
theorem drop_single_input (paths : List String) :
    (paths = [] → onNativeDrop paths = ⟨none, false⟩) ∧
    (∀ p rest, paths = p :: rest →
      (onNativeDrop paths).processedPath = some p ∧
      ((onNativeDrop paths).multiDropNotice = true ↔ rest ≠ [])) := by
  constructor
  · intro h
    subst h
    simp [onNativeDrop]
  · intro p rest h
    subst h
    cases rest <;> simp [onNativeDrop]

/-- Witness for drop_single_input on an empty and on a two-path drop. -/
theorem drop_single_input_witness :
    onNativeDrop ([] : List String) = ⟨none, false⟩ ∧
    (onNativeDrop ["C:\\a.mp4", "C:\\b.mp4"]).processedPath = some ("C:\\a.mp4") ∧
    (onNativeDrop ["C:\\a.mp4", "C:\\b.mp4"]).multiDropNotice = true := by
  refine ⟨(drop_single_input ([] : List String)).1 rfl, ?_, ?_⟩
  · exact ((drop_single_input ["C:\\a.mp4", "C:\\b.mp4"]).2 ("C:\\a.mp4") ["C:\\b.mp4"] rfl).1
  · exact ((drop_single_input ["C:\\a.mp4", "C:\\b.mp4"]).2 ("C:\\a.mp4") ["C:\\b.mp4"] rfl).2.mpr
      (by simp)

/-- C2 counterexample: the line time=00:00:02.00 time=00:01:05.00 contains
the substring time=00:01:05.00, yet with duration 125 the tracker emits
1.6 (from the first marker), not 52. -/
theorem progress_substring_claim_false :
    containsSub (("time=00:01:05.00").toList)
      (("time=00:00:02.00 time=00:01:05.00").toList) = true ∧
    updateProgressFromLogLine 125
      (("time=00:00:02.00 time=00:01:05.00").toList) = some (8 / 5) ∧
    (8 / 5 : ℚ) ≠ 52 := by
  refine ⟨by decide, ?_, by norm_num⟩
  have h1 : firstTimeMatch (("time=00:00:02.00 time=00:01:05.00").toList)
      = some (("00:00:02.00").toList) := by decide
  have h2 : parseTimestampToSeconds (("00:00:02.00").toList) = 2 := by
    simp +decide [parseTimestampToSeconds, splitOnChar, jsNumber?, takeDigits, digitsVal]
  simp only [updateProgressFromLogLine, h1, h2, setProgress]
  norm_num

/-- C2 amended: with duration 125, every line whose first time= match has
the value 00:01:05.00 yields the update 52; with duration 0 no line yields
an update. -/
theorem progress_65_of_125_gives_52 :
    (∀ line, firstTimeMatch line = some (("00:01:05.00").toList) →
      updateProgressFromLogLine 125 line = some 52) ∧
    (∀ line, updateProgressFromLogLine 0 line = none) := by
  constructor
  · intro line h1
    have h2 : parseTimestampToSeconds (("00:01:05.00").toList) = 65 := by
      simp +decide [parseTimestampToSeconds, splitOnChar, jsNumber?, takeDigits, digitsVal]
      norm_num
    simp only [updateProgressFromLogLine, h1, h2, setProgress]
    norm_num
  · intro line
    simp [updateProgressFromLogLine]

/-- Witness for progress_65_of_125_gives_52 on a realistic ffmpeg log
line. -/
theorem progress_65_of_125_gives_52_witness :
    updateProgressFromLogLine 125
      (("frame= 1950 fps= 30 time=00:01:05.00 bitrate=2000.0kbits/s").toList) = some 52 ∧
    updateProgressFromLogLine 0 (("time=00:01:05.00").toList) = none := by
  exact ⟨progress_65_of_125_gives_52.1
      (("frame= 1950 fps= 30 time=00:01:05.00 bitrate=2000.0kbits/s").toList) (by decide),
    progress_65_of_125_gives_52.2 (("time=00:01:05.00").toList)⟩

/-- C3 counterexample: with duration 10 > 0, the line
time=00:00:00.00 bitrate=N/A carries the well-formed match 00:00:00.00,
yet the tracker emits nothing — the computed ratio 0 is suppressed by the
elapsed <= 0 guard. -/
theorem progress_zero_elapsed_suppressed :
    firstTimeMatch (("time=00:00:00.00 bitrate=N/A").toList)
      = some (("00:00:00.00").toList) ∧
    (0 : ℚ) < 10 ∧
    updateProgressFromLogLine 10 (("time=00:00:00.00 bitrate=N/A").toList) = none := by
  refine ⟨by decide, by norm_num, ?_⟩
  have h1 : firstTimeMatch (("time=00:00:00.00 bitrate=N/A").toList)
      = some (("00:00:00.00").toList) := by decide
  have h2 : parseTimestampToSeconds (("00:00:00.00").toList) = 0 := by
    simp +decide [parseTimestampToSeconds, splitOnChar, jsNumber?, takeDigits, digitsVal]
  simp only [updateProgressFromLogLine, h1, h2]
  norm_num

/-- C3 amended: for every known duration > 0 and every line with a
well-formed first time= match, the tracker reports the instantaneous
computed ratio elapsed/duration*100 clamped to [0,100] whenever
elapsed > 0, and suppresses the match when elapsed = 0. -/
theorem progress_reports_clamped_ratio (d : ℚ) (line g : List Char)
    (hd : 0 < d) (hm : firstTimeMatch line = some g) :
    (0 < parseTimestampToSeconds g →
      updateProgressFromLogLine d line
        = some (setProgress (parseTimestampToSeconds g / d * 100))) ∧
    (parseTimestampToSeconds g ≤ 0 → updateProgressFromLogLine d line = none) ∧
    0 ≤ setProgress (parseTimestampToSeconds g / d * 100) ∧
    setProgress (parseTimestampToSeconds g / d * 100) ≤ 100 := by
  refine ⟨?_, ?_, le_max_left 0 _, max_le (by norm_num) (min_le_left 100 _)⟩
  · intro he
    simp [updateProgressFromLogLine, hm, hd.not_le, he.not_le]
  · intro he
    simp [updateProgressFromLogLine, hm, hd.not_le, he]

/-- Witness for progress_reports_clamped_ratio with duration 125 and
elapsed 65 seconds. -/
theorem progress_reports_clamped_ratio_witness :
    updateProgressFromLogLine 125 (("time=00:01:05.00 speed=1x").toList)
      = some (setProgress
          (parseTimestampToSeconds (("00:01:05.00").toList) / 125 * 100)) ∧
    0 ≤ setProgress (parseTimestampToSeconds (("00:01:05.00").toList) / 125 * 100) ∧
    setProgress (parseTimestampToSeconds (("00:01:05.00").toList) / 125 * 100) ≤ 100 := by
  have h65 : parseTimestampToSeconds (("00:01:05.00").toList) = 65 := by
    simp +decide [parseTimestampToSeconds, splitOnChar, jsNumber?, takeDigits, digitsVal]
    norm_num
  have h := progress_reports_clamped_ratio 125 (("time=00:01:05.00 speed=1x").toList)
    (("00:01:05.00").toList) (by norm_num) (by decide)
  exact ⟨h.1 (by rw [h65]; norm_num), h.2.2.1, h.2.2.2⟩

/-- C4: the tracker emits nothing for a line with no well-formed time=
match (no marker at all, or no marker followed by an HH:MM:SS value with
optional fraction), emits nothing when the known duration is ≤ 0, and the
update depends only on the first well-formed match of the line. -/
theorem progress_no_update_cases :
    (∀ d line, firstTimeMatch line = none →
      updateProgressFromLogLine d line = none) ∧
    (∀ (d : ℚ) line, d ≤ 0 → updateProgressFromLogLine d line = none) ∧
    (∀ d l1 l2, firstTimeMatch l1 = firstTimeMatch l2 →
      updateProgressFromLogLine d l1 = updateProgressFromLogLine d l2) := by
  refine ⟨?_, ?_, ?_⟩
  · intro d line h
    simp [updateProgressFromLogLine, h]
  · intro d line h
    simp [updateProgressFromLogLine, h]
  · intro d l1 l2 h
    simp only [updateProgressFromLogLine, h]

/-- Witness for progress_no_update_cases: a line with a malformed time=
value, a non-positive duration, and two lines sharing their first match. -/
theorem progress_no_update_cases_witness :
    updateProgressFromLogLine 125 (("time=1:2:3 speed=1x").toList) = none ∧
    updateProgressFromLogLine (-3) (("time=00:01:05.00").toList) = none ∧
    updateProgressFromLogLine 52 (("x time=00:07:00.00").toList)
      = updateProgressFromLogLine 52 (("time=00:07:00.00 y").toList) := by
  exact ⟨progress_no_update_cases.1 125 (("time=1:2:3 speed=1x").toList) (by decide),
    progress_no_update_cases.2.1 (-3) (("time=00:01:05.00").toList) (by norm_num),
    progress_no_update_cases.2.2 52 (("x time=00:07:00.00").toList)
      (("time=00:07:00.00 y").toList) (by decide)⟩

/-- C5: the defaults derived from a probe result substitute the documented
fallbacks exactly for the missing (absent or zero/empty) fields — video
bitrate 3000, audio bitrate 128, audio codec aac, frame rate 30 — and pass
every present nonzero/nonempty field through unchanged, width and height
always unchanged. -/
theorem probe_defaults_fallbacks (p : ProbeResult) :
    (probeDefaults p).width = p.width ∧
    (probeDefaults p).height = p.height ∧
    ((p.videoBitrateK = none ∨ p.videoBitrateK = some 0) →
      (probeDefaults p).videoBitrateK = 3000) ∧
    (∀ x, p.videoBitrateK = some x → x ≠ 0 → (probeDefaults p).videoBitrateK = x) ∧
    ((p.audioBitrateK = none ∨ p.audioBitrateK = some 0) →
      (probeDefaults p).audioBitrateK = 128) ∧
    (∀ x, p.audioBitrateK = some x → x ≠ 0 → (probeDefaults p).audioBitrateK = x) ∧
    ((p.audioFormat = none ∨ p.audioFormat = some ("")) →
      (probeDefaults p).audioFormat = "aac") ∧
    (∀ f, p.audioFormat = some f → f ≠ "" → (probeDefaults p).audioFormat = f) ∧
    ((p.frameRate = none ∨ p.frameRate = some 0) →
      (probeDefaults p).frameRate = 30) ∧
    (∀ x, p.frameRate = some x → x ≠ 0 → (probeDefaults p).frameRate = x) := by
  refine ⟨rfl, rfl, ?_, ?_, ?_, ?_, ?_, ?_, ?_, ?_⟩ <;>
    first
      | (rintro (h | h) <;> simp [probeDefaults, orFalsyQ, orFalsyS, h])
      | (intro x hx hne; simp [probeDefaults, orFalsyQ, orFalsyS, hx, hne])

/-- Witness for probe_defaults_fallbacks: a video-only probe result keeps
its video fields and receives the audio fallbacks. -/
theorem probe_defaults_fallbacks_witness :
    (probeDefaults ⟨1920, 1080, some 60, some 5000, none, none, some 125⟩).width = 1920 ∧
    (probeDefaults ⟨1920, 1080, some 60, some 5000, none, none, some 125⟩).videoBitrateK = 5000 ∧
    (probeDefaults ⟨1920, 1080, some 60, some 5000, none, none, some 125⟩).frameRate = 60 ∧
    (probeDefaults ⟨1920, 1080, some 60, some 5000, none, none, some 125⟩).audioBitrateK = 128 ∧
    (probeDefaults ⟨1920, 1080, some 60, some 5000, none, none, some 125⟩).audioFormat = "aac" := by
  have h := probe_defaults_fallbacks ⟨1920, 1080, some 60, some 5000, none, none, some 125⟩
  exact ⟨h.1, h.2.2.2.1 5000 rfl (by norm_num), h.2.2.2.2.2.2.2.2.2 60 rfl (by norm_num),
    h.2.2.2.2.1 (Or.inl rfl), h.2.2.2.2.2.2.1 (Or.inl rfl)⟩

/-- C6: formatBackendError classifies by substring matching in the
source's fixed order — each of the five error codes, when it is the one
matched, maps to its own message, the five messages are pairwise distinct,
and a text containing none of the codes (in particular an execution
failure carrying only an exit code) is passed through unchanged. -/
theorem error_classification (raw : String) :
    (containsCode raw ("ERR_DOWNLOAD") = true →
      formatBackendError raw = errMsgDownload) ∧
    (containsCode raw ("ERR_DOWNLOAD") = false →
      containsCode raw ("ERR_HASH") = true →
      formatBackendError raw = errMsgHash) ∧
    (containsCode raw ("ERR_DOWNLOAD") = false →
      containsCode raw ("ERR_HASH") = false →
      containsCode raw ("ERR_FFMPEG_NOT_FOUND") = true →
      formatBackendError raw = errMsgNotFound) ∧
    (containsCode raw ("ERR_DOWNLOAD") = false →
      containsCode raw ("ERR_HASH") = false →
      containsCode raw ("ERR_FFMPEG_NOT_FOUND") = false →
      containsCode raw ("ERR_CANCELLED") = true →
      formatBackendError raw = errMsgCancelled) ∧
    (containsCode raw ("ERR_DOWNLOAD") = false →
      containsCode raw ("ERR_HASH") = false →
      containsCode raw ("ERR_FFMPEG_NOT_FOUND") = false →
      containsCode raw ("ERR_CANCELLED") = false →
      containsCode raw ("ERR_START") = true →
      formatBackendError raw = errMsgStart) ∧
    (containsCode raw ("ERR_DOWNLOAD") = false →
      containsCode raw ("ERR_HASH") = false →
      containsCode raw ("ERR_FFMPEG_NOT_FOUND") = false →
      containsCode raw ("ERR_CANCELLED") = false →
      containsCode raw ("ERR_START") = false →
      formatBackendError raw = raw) ∧
    (errMsgDownload ≠ errMsgHash ∧ errMsgDownload ≠ errMsgNotFound ∧
      errMsgDownload ≠ errMsgCancelled ∧ errMsgDownload ≠ errMsgStart ∧
      errMsgHash ≠ errMsgNotFound ∧ errMsgHash ≠ errMsgCancelled ∧
      errMsgHash ≠ errMsgStart ∧ errMsgNotFound ≠ errMsgCancelled ∧
      errMsgNotFound ≠ errMsgStart ∧ errMsgCancelled ≠ errMsgStart) := by
  refine ⟨?_, ?_, ?_, ?_, ?_, ?_, by decide⟩ <;>
    { intros; simp_all [formatBackendError] }

/-- Witness for error_classification: a hash-mismatch text classifies as
the hash message and an execution-failure text passes through. -/
theorem error_classification_witness :
    formatBackendError ("invoke error: ERR_HASH mismatch") = errMsgHash ∧
    formatBackendError ("ffmpeg exited with code 1") = "ffmpeg exited with code 1" := by
  exact ⟨(error_classification ("invoke error: ERR_HASH mismatch")).2.1
      (by decide) (by decide),
    (error_classification ("ffmpeg exited with code 1")).2.2.2.2.2.1
      (by decide) (by decide) (by decide) (by decide) (by decide)⟩

/-- C8: in the spec-modelled verification step of ensure_ffmpeg_ready, any
downloaded archive that differs from the pinned artifact — for every
digest function that does not collide on this pair — fails with ERR_HASH
and is discarded, never kept as a verified binary. -/
theorem hash_mismatch_rejected (sha256hex : List ℕ → String)
    (pinnedContent archive : List ℕ) (hneq : archive ≠ pinnedContent)
    (hcoll : sha256hex archive = sha256hex pinnedContent → archive = pinnedContent) :
    (verifyDownload sha256hex (sha256hex pinnedContent) archive).outcome
      = .failedWith ("ERR_HASH") ∧
    (verifyDownload sha256hex (sha256hex pinnedContent) archive).artifactKept = false := by
  have hdig : sha256hex archive ≠ sha256hex pinnedContent := fun h => hneq (hcoll h)
  simp [verifyDownload, hdig]

/-- Witness for hash_mismatch_rejected with a concrete digest function and
a one-byte archive corruption. -/
theorem hash_mismatch_rejected_witness :
    (verifyDownload (fun (l : List ℕ) => if l.length = 1 then ("a") else ("b"))
      ((fun (l : List ℕ) => if l.length = 1 then ("a") else ("b")) [7])
      [7, 7]).outcome = .failedWith ("ERR_HASH") ∧
    (verifyDownload (fun (l : List ℕ) => if l.length = 1 then ("a") else ("b"))
      ((fun (l : List ℕ) => if l.length = 1 then ("a") else ("b")) [7])
      [7, 7]).artifactKept = false := by
  exact hash_mismatch_rejected (fun (l : List ℕ) => if l.length = 1 then ("a") else ("b"))
    [7] [7, 7] (by decide) (by decide)

end FfmpegGui
